import Mathlib

/-!
Verification of the Planet Four catalog production pipeline
(`planet4/catalog_production.py`, `planet4/reduction.py`, `planet4/markings.py`).

The Python data frames are embedded as Lean lists of structure values; pandas
numeric cells are embedded as exact rationals (`ℚ`), and the real-valued fan
geometry of `markings.py` as real numbers.  Python generators are embedded as
the list of values they will yield; drawing past the end of that list models
the `StopIteration` exception.
-/

namespace P4

/-! ### Identifier generators (`catalog_production.fan_id_generator` /
`blotch_id_generator`)

`string.digits + "abcdef"` is the 16-character alphabet; `itertools.product`
with `repeat=6` enumerates all 6-tuples, leftmost position varying slowest. -/

/-- The character set `string.digits + "abcdef"` used for marking ids. -/
def id_alphabet : List Char := "0123456789abcdef".toList

/-- Embedding of `itertools.product(l, repeat=n)` in Python iteration order:
the first tuple position varies slowest. -/
def pyproduct (l : List Char) : Nat → List (List Char)
  | 0 => [[]]
  | n + 1 => l.flatMap fun c => (pyproduct l n).map fun t => c :: t

/-- Embedding of `fan_id_generator`: the sequence of values the Python
generator yields, in order. -/
def fan_id_generator : List String :=
  (pyproduct id_alphabet 6).map fun t => "F" ++ String.mk t

/-- Embedding of `blotch_id_generator`. -/
def blotch_id_generator : List String :=
  (pyproduct id_alphabet 6).map fun t => "B" ++ String.mk t

/-- Well-formedness of one marking id: a kind letter followed by exactly six
characters from the 16-character alphabet. -/
def valid_id (k : Char) (s : String) : Prop :=
  s.data.length = 7 ∧ s.data.head? = some k ∧ ∀ c ∈ s.data.tail, c ∈ id_alphabet

lemma pyproduct_mem {l : List Char} : ∀ {n : Nat} {t : List Char},
    t ∈ pyproduct l n ↔ t.length = n ∧ ∀ c ∈ t, c ∈ l := by
  intro n
  induction n with
  | zero =>
    intro t
    simp only [pyproduct, List.mem_singleton, List.length_eq_zero]
    constructor
    · rintro rfl; simp
    · rintro ⟨rfl, -⟩; rfl
  | succ n ih =>
    intro t
    simp only [pyproduct, List.mem_flatMap, List.mem_map]
    constructor
    · rintro ⟨c, hc, a, ha, rfl⟩
      obtain ⟨hlen, hmem⟩ := ih.mp ha
      refine ⟨by simp [hlen], ?_⟩
      intro x hx
      rcases List.mem_cons.mp hx with rfl | hx
      · exact hc
      · exact hmem x hx
    · rintro ⟨hlen, hmem⟩
      cases t with
      | nil => simp at hlen
      | cons c a =>
        refine ⟨c, hmem c (List.mem_cons_self c a), a, ?_, rfl⟩
        exact ih.mpr ⟨by simpa using hlen, fun x hx => hmem x (List.mem_cons_of_mem c hx)⟩

lemma pyproduct_nodup {l : List Char} (hl : l.Nodup) :
    ∀ n, (pyproduct l n).Nodup := by
  intro n
  induction n with
  | zero => simp [pyproduct]
  | succ n ih =>
    rw [show pyproduct l (n + 1) = l.flatMap fun c => (pyproduct l n).map fun t => c :: t
        from rfl]
    refine List.nodup_flatMap.mpr ⟨?_, ?_⟩
    · intro c _
      exact ih.map fun a b h => by simpa using h
    · refine hl.imp ?_
      intro a b hab
      intro t ht1 ht2
      obtain ⟨u, -, hu⟩ := List.mem_map.mp ht1
      obtain ⟨v, -, hv⟩ := List.mem_map.mp ht2
      rw [← hu] at hv
      injection hv with h1 h2
      exact hab h1.symm

lemma pyproduct_length (l : List Char) : ∀ n, (pyproduct l n).length = l.length ^ n := by
  intro n
  induction n with
  | zero => simp [pyproduct]
  | succ n ih =>
    rw [show pyproduct l (n + 1) = l.flatMap fun c => (pyproduct l n).map fun t => c :: t
        from rfl]
    rw [List.length_flatMap]
    have : (List.map (List.length ∘ fun c => (pyproduct l n).map fun t => c :: t) l)
        = List.map (fun _ => l.length ^ n) l := by
      refine List.map_congr_left ?_
      intro c _
      simp [ih]
    rw [this, List.map_const', List.sum_replicate, smul_eq_mul, pow_succ]
    ring

lemma kind_gen_eq (k : Char) (kstr : String) (hk : kstr.data = [k]) :
    ((pyproduct id_alphabet 6).map fun t => kstr ++ String.mk t)
      = (pyproduct id_alphabet 6).map fun t => String.mk (k :: t) := by
  refine List.map_congr_left ?_
  intro t _
  apply String.ext
  rw [String.data_append, hk]
  rfl

lemma id_alphabet_nodup : id_alphabet.Nodup := by decide

lemma id_alphabet_length : id_alphabet.length = 16 := by decide

lemma kind_gen_nodup (k : Char) :
    ((pyproduct id_alphabet 6).map fun t => String.mk (k :: t)).Nodup := by
  refine (pyproduct_nodup id_alphabet_nodup 6).map ?_
  intro a b h
  have h2 : k :: a = k :: b := congrArg String.data h
  exact (List.cons.injEq .. ▸ h2).2

lemma kind_gen_length (k : Char) :
    ((pyproduct id_alphabet 6).map fun t => String.mk (k :: t)).length = 16 ^ 6 := by
  rw [List.length_map, pyproduct_length, id_alphabet_length]

lemma kind_gen_valid (k : Char) :
    List.Forall (valid_id k) ((pyproduct id_alphabet 6).map fun t => String.mk (k :: t)) := by
  refine List.forall_iff_forall_mem.mpr ?_
  intro s hs
  obtain ⟨t, ht, rfl⟩ := List.mem_map.mp hs
  obtain ⟨hlen, hmem⟩ := pyproduct_mem.mp ht
  exact ⟨by simp [hlen], rfl, by simpa using hmem⟩

/-- C1: within each kind-namespace the id generator yields pairwise distinct
identifiers, each a kind letter (`F` or `B`) followed by exactly six
characters from the 16-character alphabet; the sequence stops (Python raises
`StopIteration`) after exactly `16 ^ 6` identifiers, neither wrapping around
nor yielding a longer id. -/
theorem C1_id_generators :
    fan_id_generator.Nodup ∧ blotch_id_generator.Nodup ∧
    fan_id_generator.length = 16 ^ 6 ∧ blotch_id_generator.length = 16 ^ 6 ∧
    List.Forall (valid_id 'F') fan_id_generator ∧
    List.Forall (valid_id 'B') blotch_id_generator ∧
    (∀ k : Nat, fan_id_generator[16 ^ 6 + k]? = none) ∧
    (∀ k : Nat, blotch_id_generator[16 ^ 6 + k]? = none) := by
  have hf : fan_id_generator = (pyproduct id_alphabet 6).map fun t => String.mk ('F' :: t) :=
    kind_gen_eq 'F' "F" rfl
  have hb : blotch_id_generator
      = (pyproduct id_alphabet 6).map fun t => String.mk ('B' :: t) :=
    kind_gen_eq 'B' "B" rfl
  rw [hf, hb]
  refine ⟨kind_gen_nodup 'F', kind_gen_nodup 'B',
    kind_gen_length 'F', kind_gen_length 'B',
    kind_gen_valid 'F', kind_gen_valid 'B', ?_, ?_⟩
  · intro k
    exact List.getElem?_eq_none (by rw [kind_gen_length]; omega)
  · intro k
    exact List.getElem?_eq_none (by rw [kind_gen_length]; omega)

/-! ### `add_marking_ids` -/

/-- One `next(id_)` call per data-frame row: assign the next `n` identifiers
from generator `g`, in row order.  `none` models an uncaught `StopIteration`
when the generator is exhausted mid-loop. -/
def assign_ids : Nat → List String → Option (List String × List String)
  | 0, g => some ([], g)
  | _ + 1, [] => none
  | n + 1, id0 :: rest => (assign_ids n rest).map fun p => (id0 :: p.1, p.2)

/-- Contents of one L1A clustering-result directory as `add_marking_ids` sees
it: for each kind, `some rowcount` when the kind's CSV file exists and
`none` when reading it raises `FileNotFoundError`. -/
structure ClusterDir where
  fans : Option Nat
  blotches : Option Nat

/-- One iteration of the `for kind, id_ in zip(...)` loop body of
`add_marking_ids`: a missing file is skipped (`continue`) and consumes no
identifier, otherwise every row gets the next id of that kind's generator. -/
def process_kind (file : Option Nat) (g : List String) :
    Option (Option (List String) × List String) :=
  match file with
  | none => some (none, g)
  | some n => (assign_ids n g).map fun p => (some p.1, p.2)

/-- Result of `add_marking_ids` on one directory: the ids written to each
kind's CSV column (in row order), what remains of each generator, and the
log of all generator draws in the order they happened. -/
structure MarkedDir where
  fan_ids : Option (List String)
  blotch_ids : Option (List String)
  fan_gen_rest : List String
  blotch_gen_rest : List String
  draw_log : List (String × String)
deriving DecidableEq

/-- Embedding of `add_marking_ids(path, fan_id, blotch_id)`: the
`zip(["fans", "blotches"], [fan_id, blotch_id])` makes the loop handle the
fans file first, then the blotches file. -/
def add_marking_ids (dir : ClusterDir) (fan_id blotch_id : List String) :
    Option MarkedDir :=
  match process_kind dir.fans fan_id with
  | none => none
  | some (fids, fan_rest) =>
    match process_kind dir.blotches blotch_id with
    | none => none
    | some (bids, blotch_rest) =>
      some ⟨fids, bids, fan_rest, blotch_rest,
        ((fids.getD []).map fun i => ("fans", i))
          ++ ((bids.getD []).map fun i => ("blotches", i))⟩

lemma assign_ids_eq : ∀ (n : Nat) (g : List String), n ≤ g.length →
    assign_ids n g = some (g.take n, g.drop n) := by
  intro n
  induction n with
  | zero => intro g _; simp [assign_ids]
  | succ n ih =>
    intro g hg
    cases g with
    | nil => simp at hg
    | cons a rest =>
      have : n ≤ rest.length := by simpa using hg
      simp [assign_ids, ih rest this]

/-- C10: `add_marking_ids` processes the fans file and then the blotches
file; each present file's rows get consecutive identifiers from that kind's
generator in row order, consuming exactly one identifier per row, so each
kind consumes exactly its file's row count; a kind whose CSV is absent is
skipped and consumes nothing. -/
theorem C10_add_marking_ids : ∀ (fgen bgen : List String),
    (∀ (n : Nat) (g : List String), n ≤ g.length →
      assign_ids n g = some (g.take n, g.drop n)
        ∧ (g.take n).length = n ∧ g.length - (g.drop n).length = n) ∧
    (∀ nf nb, nf ≤ fgen.length → nb ≤ bgen.length →
      add_marking_ids ⟨some nf, some nb⟩ fgen bgen
        = some ⟨some (fgen.take nf), some (bgen.take nb), fgen.drop nf, bgen.drop nb,
            ((fgen.take nf).map fun i => ("fans", i))
              ++ ((bgen.take nb).map fun i => ("blotches", i))⟩) ∧
    (∀ nb, nb ≤ bgen.length →
      add_marking_ids ⟨none, some nb⟩ fgen bgen
        = some ⟨none, some (bgen.take nb), fgen, bgen.drop nb,
            (bgen.take nb).map fun i => ("blotches", i)⟩) ∧
    (∀ nf, nf ≤ fgen.length →
      add_marking_ids ⟨some nf, none⟩ fgen bgen
        = some ⟨some (fgen.take nf), none, fgen.drop nf, bgen,
            (fgen.take nf).map fun i => ("fans", i)⟩) ∧
    add_marking_ids ⟨none, none⟩ fgen bgen = some ⟨none, none, fgen, bgen, []⟩ := by
  intro fgen bgen
  refine ⟨?_, ?_, ?_, ?_, ?_⟩
  · intro n g hg
    refine ⟨assign_ids_eq n g hg, ?_, ?_⟩
    · rw [List.length_take]; omega
    · rw [List.length_drop]; omega
  · intro nf nb hf hb
    simp [add_marking_ids, process_kind, assign_ids_eq nf fgen hf, assign_ids_eq nb bgen hb]
  · intro nb hb
    simp [add_marking_ids, process_kind, assign_ids_eq nb bgen hb]
  · intro nf hf
    simp [add_marking_ids, process_kind, assign_ids_eq nf fgen hf]
  · simp [add_marking_ids, process_kind]

/-- Witness for C10 at a concrete directory: two fan rows and one blotch
row drawn from concrete generators. -/
theorem C10_add_marking_ids_witness :
    (2 ≤ (["F1", "F2", "F3"] : List String).length)
      ∧ (1 ≤ (["B1", "B2"] : List String).length)
      ∧ add_marking_ids ⟨some 2, some 1⟩ ["F1", "F2", "F3"] ["B1", "B2"]
        = some ⟨some ["F1", "F2"], some ["B1"], ["F3"], ["B2"],
            [("fans", "F1"), ("fans", "F2"), ("blotches", "B1")]⟩ :=
  ⟨by decide, by decide,
    (C10_add_marking_ids ["F1", "F2", "F3"] ["B1", "B2"]).2.1 2 1 (by decide) (by decide)⟩

/-! ### `ReleaseManager.check_for_todo` -/

/-- Embedding of `ReleaseManager.check_for_todo`: `dir_exists obsid` stands
for `(pm.obsid_results_savefolder / obsid).exists()`.  An obsid is skipped
exactly when its result folder exists and `overwrite` is false; a missing
result folder is never an error, it just keeps the obsid in the todo list. -/
def check_for_todo (obsids : List String) (dir_exists : String → Bool)
    (overwrite : Bool) : List String :=
  obsids.filter fun obsid => ! (dir_exists obsid && ! overwrite)

/-- C4: with `overwrite = false` no obsid whose result folder exists is
returned; with `overwrite = true` every obsid is returned; an obsid without
a result folder is always returned; and the two-observation scenario
(A done, B not) yields the todo list [B], then [] once B is also done. -/
theorem C4_check_for_todo :
    (∀ (obsids : List String) (d : String → Bool),
      ∀ o ∈ check_for_todo obsids d false, d o = false) ∧
    (∀ (obsids : List String) (d : String → Bool), check_for_todo obsids d true = obsids) ∧
    (∀ (obsids : List String) (d : String → Bool) (ow : Bool) (o : String),
      o ∈ obsids → d o = false → o ∈ check_for_todo obsids d ow) ∧
    check_for_todo ["A", "B"] (fun o => o == "A") false = ["B"] ∧
    check_for_todo ["A", "B"] (fun o => o == "A" || o == "B") false = [] := by
  refine ⟨?_, ?_, ?_, by decide, by decide⟩
  · intro obsids d o ho
    have h := (List.mem_filter.mp ho).2
    simpa using h
  · intro obsids d
    simp [check_for_todo]
  · intro obsids d ow o ho hd
    exact List.mem_filter.mpr ⟨ho, by simp [hd]⟩

/-- Witness for C4 at concrete inputs. -/
theorem C4_check_for_todo_witness :
    ("B" ∈ check_for_todo ["B"] (fun _ => false) false) ∧
    (fun _ : String => false) "B" = false ∧
    ("A" ∈ ["A", "B"]) ∧
    ("A" ∈ check_for_todo ["A", "B"] (fun _ => false) true) :=
  ⟨by decide,
    C4_check_for_todo.1 ["B"] (fun _ => false) "B" (by decide),
    by decide,
    C4_check_for_todo.2.2.1 ["A", "B"] (fun _ => false) true "A" (by decide) rfl⟩

/-- String comparison: Python orders strings lexicographically by code
point, which on the embedding is the lexicographic order of the character
lists. -/
def str_le (a b : String) : Prop := a.data ≤ b.data

instance : DecidableRel str_le := fun a b => inferInstanceAs (Decidable (a.data ≤ b.data))

/-- C5 counterexample: `check_for_todo` preserves the input order and never
sorts, so an unsorted obsids list yields an unsorted todo list. -/
theorem C5_counterexample :
    check_for_todo ["OBSB", "OBSA"] (fun _ => false) false = ["OBSB", "OBSA"] ∧
    ¬ List.Sorted str_le (check_for_todo ["OBSB", "OBSA"] (fun _ => false) false) := by
  constructor
  · decide
  · decide

/-- C5 (amended): the todo subset computed by `check_for_todo` is
deterministic in its inputs and preserves the input order (it is a sublist
of the input); it is sorted whenever the input obsid list is sorted, but the
code itself performs no sorting. -/
theorem C5_check_for_todo_order :
    ∀ (obsids : List String) (d : String → Bool) (ow : Bool),
    (check_for_todo obsids d ow).Sublist obsids ∧
    (List.Sorted str_le obsids → List.Sorted str_le (check_for_todo obsids d ow)) := by
  intro obsids d ow
  exact ⟨List.filter_sublist obsids,
    fun hs => List.Pairwise.sublist (List.filter_sublist obsids) hs⟩

/-- Witness for C5 (amended) at a concrete sorted input. -/
theorem C5_check_for_todo_order_witness :
    List.Sorted str_le ["OBSA", "OBSB"] ∧
    List.Sorted str_le (check_for_todo ["OBSA", "OBSB"] (fun o => o == "OBSA") false) :=
  ⟨by decide,
    (C5_check_for_todo_order ["OBSA", "OBSB"] (fun o => o == "OBSA") false).2 (by decide)⟩

/-! ### Published column schemas -/

/-- Embedding of `ReleaseManager.FAN_COLUMNS_AS_PUBLISHED`. -/
def FAN_COLUMNS_AS_PUBLISHED : List String :=
  ["marking_id", "angle", "distance", "tile_id", "image_x", "image_y", "n_votes",
   "obsid", "spread", "version", "vote_ratio", "x", "y", "x_angle", "y_angle",
   "l_s", "map_scale", "north_azimuth", "BodyFixedCoordinateX",
   "BodyFixedCoordinateY", "BodyFixedCoordinateZ", "PlanetocentricLatitude",
   "PlanetographicLatitude", "Longitude"]

/-- Embedding of `ReleaseManager.BLOTCH_COLUMNS_AS_PUBLISHED`. -/
def BLOTCH_COLUMNS_AS_PUBLISHED : List String :=
  ["marking_id", "angle", "tile_id", "image_x", "image_y", "n_votes",
   "obsid", "radius_1", "radius_2", "vote_ratio", "x", "y", "x_angle", "y_angle",
   "l_s", "map_scale", "north_azimuth", "BodyFixedCoordinateX",
   "BodyFixedCoordinateY", "BodyFixedCoordinateZ", "PlanetocentricLatitude",
   "PlanetographicLatitude", "Longitude"]

/-- C6 counterexample: the published fan column "version" is absent from the
published blotch schema, so the blotch list is not the fan list with just
radius_1/radius_2 replacing distance/spread. -/
theorem C6_counterexample :
    ¬ (∀ c ∈ FAN_COLUMNS_AS_PUBLISHED, c ≠ "distance" → c ≠ "spread" →
        c ∈ BLOTCH_COLUMNS_AS_PUBLISHED) := by decide

/-- C6 (amended): the published blotch column list equals the published fan
column list with `distance`, `spread` and also `version` removed, and
`radius_1`, `radius_2` inserted directly after `obsid`. -/
theorem C6_published_columns :
    BLOTCH_COLUMNS_AS_PUBLISHED
      = (((FAN_COLUMNS_AS_PUBLISHED.erase "distance").erase "spread").erase
          "version").take 7
        ++ ["radius_1", "radius_2"]
        ++ (((FAN_COLUMNS_AS_PUBLISHED.erase "distance").erase "spread").erase
          "version").drop 7 := by decide

/-! ### `ReleaseManager.fan_file` / `blotch_file` -/

/-- Observable outcome of one Python property access: a raised exception
that propagates, or a returned value (`none` models Python's `None`),
together with anything printed. -/
structure LookupOutcome where
  raised : Option String
  returned : Option String
  printed : List String
deriving DecidableEq

/-- Test modelling `savefolder.glob(pattern)` membership for a pattern of
the shape `*suffix`: the file name has to end with the suffix. -/
def endswith (s sfx : String) : Bool := sfx.data.isSuffixOf s.data

/-- The files of the catalog folder matching `*suffix`, in glob order. -/
def glob_matches (sfx : String) (files : List String) : List String :=
  files.filter fun f => endswith f sfx

/-- Embedding of the `ReleaseManager.fan_file` property: `next()` on the
glob iterator returns the first match; on `StopIteration` the `except`
branch prints a message and falls off the function, returning `None`. -/
def fan_file (savefolder : String) (files : List String) : LookupOutcome :=
  match glob_matches "_fan.csv" files with
  | [] => { raised := none, returned := none,
            printed := ["No file found. Looking at " ++ savefolder ++ "."] }
  | f :: _ => { raised := none, returned := some f, printed := [] }

/-- Embedding of the `ReleaseManager.blotch_file` property. -/
def blotch_file (savefolder : String) (files : List String) : LookupOutcome :=
  match glob_matches "_blotch.csv" files with
  | [] => { raised := none, returned := none,
            printed := ["No file found. Looking at " ++ savefolder ++ "."] }
  | f :: _ => { raised := none, returned := some f, printed := [] }

/-- The claim's reading of the lookup, for comparison: no matching candidate
file raises an explicit "catalog source not found" error instead of
returning an absent value. -/
def fan_file_claimed (files : List String) : LookupOutcome :=
  match glob_matches "_fan.csv" files with
  | [] => { raised := some "catalog source not found", returned := none, printed := [] }
  | f :: _ => { raised := none, returned := some f, printed := [] }

/-- C7 counterexample: on an empty catalog folder the lookup raises nothing
and silently returns `None` (plus a printed message), differing from the
claimed error-raising behaviour. -/
theorem C7_counterexample :
    (fan_file "P4_catalog_v1" []).raised = none ∧
    (fan_file "P4_catalog_v1" []).returned = none ∧
    fan_file "P4_catalog_v1" [] ≠ fan_file_claimed [] ∧
    (blotch_file "P4_catalog_v1" []).raised = none ∧
    (blotch_file "P4_catalog_v1" []).returned = none := by decide

/-- C7 (amended): `fan_file`/`blotch_file` never raise; they return the
first glob match of the kind's pattern, and when no file matches they print
a "No file found" message and return `None` — an absent value whose later
use (e.g. `fan_merged` accessing `.parent`) crashes. -/
theorem C7_candidate_file_lookup :
    ∀ (sf : String) (files : List String),
    (fan_file sf files).raised = none ∧
    (fan_file sf files).returned = (glob_matches "_fan.csv" files).head? ∧
    (glob_matches "_fan.csv" files = [] →
      fan_file sf files
        = ⟨none, none, ["No file found. Looking at " ++ sf ++ "."]⟩) ∧
    (blotch_file sf files).raised = none ∧
    (blotch_file sf files).returned = (glob_matches "_blotch.csv" files).head? ∧
    (glob_matches "_blotch.csv" files = [] →
      blotch_file sf files
        = ⟨none, none, ["No file found. Looking at " ++ sf ++ "."]⟩) := by
  intro sf files
  refine ⟨?_, ?_, ?_, ?_, ?_, ?_⟩
  · cases h : glob_matches "_fan.csv" files with
    | nil => simp [fan_file, h]
    | cons f rest => simp [fan_file, h]
  · cases h : glob_matches "_fan.csv" files with
    | nil => simp [fan_file, h]
    | cons f rest => simp [fan_file, h]
  · intro h; simp [fan_file, h]
  · cases h : glob_matches "_blotch.csv" files with
    | nil => simp [blotch_file, h]
    | cons f rest => simp [blotch_file, h]
  · cases h : glob_matches "_blotch.csv" files with
    | nil => simp [blotch_file, h]
    | cons f rest => simp [blotch_file, h]
  · intro h; simp [blotch_file, h]

/-- Witness for C7 (amended) on an empty catalog folder. -/
theorem C7_candidate_file_lookup_witness :
    glob_matches "_fan.csv" ([] : List String) = [] ∧
    fan_file "P4_catalog_v2" []
      = ⟨none, none, ["No file found. Looking at P4_catalog_v2."]⟩ :=
  ⟨rfl, by
    have h := (C7_candidate_file_lookup "P4_catalog_v2" []).2.2.1 rfl
    simpa using h⟩

/-! ### `reduction.convert_ellipse_angles` / `normalize_fan_angles` -/

/-- One row of the raw markings data frame, restricted to the columns these
functions read or write. -/
structure MRow where
  marking : String
  angle : ℚ
deriving DecidableEq

/-- Python's `%` operator on exact numbers, for a positive modulus. -/
def pymod (x m : ℚ) : ℚ := x - m * (⌊x / m⌋ : ℤ)

/-- Embedding of `convert_ellipse_angles`: rows whose `marking` is
`"blotch"` get their angle reduced modulo 180, all other rows pass through
unchanged. -/
def convert_ellipse_angles (df : List MRow) : List MRow :=
  df.map fun r => if r.marking = "blotch" then { r with angle := pymod r.angle 180 } else r

/-- Embedding of `normalize_fan_angles`: rows whose `marking` is `"fan"`
get their angle reduced modulo 360, all other rows pass through unchanged. -/
def normalize_fan_angles (df : List MRow) : List MRow :=
  df.map fun r => if r.marking = "fan" then { r with angle := pymod r.angle 360 } else r

lemma pymod_bounds (x m : ℚ) (hm : 0 < m) : 0 ≤ pymod x m ∧ pymod x m < m := by
  have h1 : ((⌊x / m⌋ : ℚ)) ≤ x / m := Int.floor_le (x / m)
  have h2 : x / m < (⌊x / m⌋ : ℚ) + 1 := Int.lt_floor_add_one (x / m)
  have h1m : (⌊x / m⌋ : ℚ) * m ≤ x := by
    calc (⌊x / m⌋ : ℚ) * m ≤ (x / m) * m := mul_le_mul_of_nonneg_right h1 hm.le
    _ = x := div_mul_cancel₀ x hm.ne'
  have h2m : x < ((⌊x / m⌋ : ℚ) + 1) * m := by
    calc x = (x / m) * m := (div_mul_cancel₀ x hm.ne').symm
    _ < ((⌊x / m⌋ : ℚ) + 1) * m := by
        exact mul_lt_mul_of_pos_right h2 hm
  constructor
  · unfold pymod; nlinarith
  · unfold pymod; nlinarith

/-- C8: after `convert_ellipse_angles` every blotch row's angle lies in
[0, 180), after `normalize_fan_angles` every fan row's angle lies in
[0, 360), for arbitrary rational input angles (negative and above 360°
included), and rows of any other marking kind are returned unchanged. -/
theorem C8_angle_normalization :
    ∀ (df : List MRow) (i : Nat) (r r' : MRow),
    (convert_ellipse_angles df).length = df.length ∧
    (normalize_fan_angles df).length = df.length ∧
    (df[i]? = some r → (convert_ellipse_angles df)[i]? = some r' →
      ((r.marking = "blotch" →
          r'.marking = r.marking ∧ r'.angle = pymod r.angle 180 ∧
          0 ≤ r'.angle ∧ r'.angle < 180) ∧
        (r.marking ≠ "blotch" → r' = r))) ∧
    (df[i]? = some r → (normalize_fan_angles df)[i]? = some r' →
      ((r.marking = "fan" →
          r'.marking = r.marking ∧ r'.angle = pymod r.angle 360 ∧
          0 ≤ r'.angle ∧ r'.angle < 360) ∧
        (r.marking ≠ "fan" → r' = r))) := by
  intro df i r r'
  refine ⟨by simp [convert_ellipse_angles], by simp [normalize_fan_angles], ?_, ?_⟩
  · intro h1 h2
    rw [convert_ellipse_angles, List.getElem?_map, h1, Option.map_some'] at h2
    have h2 := Option.some.injEq .. ▸ h2
    constructor
    · intro hm
      rw [if_pos hm] at h2
      rw [← h2]
      exact ⟨rfl, rfl, (pymod_bounds r.angle 180 (by norm_num)).1,
        (pymod_bounds r.angle 180 (by norm_num)).2⟩
    · intro hm
      rw [if_neg hm] at h2
      exact h2.symm
  · intro h1 h2
    rw [normalize_fan_angles, List.getElem?_map, h1, Option.map_some'] at h2
    have h2 := Option.some.injEq .. ▸ h2
    constructor
    · intro hm
      rw [if_pos hm] at h2
      rw [← h2]
      exact ⟨rfl, rfl, (pymod_bounds r.angle 360 (by norm_num)).1,
        (pymod_bounds r.angle 360 (by norm_num)).2⟩
    · intro hm
      rw [if_neg hm] at h2
      exact h2.symm

/-- Sample markings rows used to witness C8: a blotch with a negative
angle, a fan with an angle above 360°, and a row of another kind. -/
def sample_rows : List MRow := [⟨"blotch", -30⟩, ⟨"fan", 370⟩, ⟨"interesting", 42⟩]

/-- Witness for C8 on `sample_rows`: -30° becomes 150° for the blotch,
370° becomes 10° for the fan, and the non-fan non-blotch row is unchanged
by both passes. -/
theorem C8_angle_normalization_witness :
    sample_rows[0]? = some ⟨"blotch", -30⟩ ∧
    (convert_ellipse_angles sample_rows)[0]? = some ⟨"blotch", 150⟩ ∧
    (0 ≤ (150 : ℚ) ∧ (150 : ℚ) < 180) ∧
    sample_rows[1]? = some ⟨"fan", 370⟩ ∧
    (normalize_fan_angles sample_rows)[1]? = some ⟨"fan", 10⟩ ∧
    (0 ≤ (10 : ℚ) ∧ (10 : ℚ) < 360) ∧
    sample_rows[2]? = some ⟨"interesting", 42⟩ ∧
    (convert_ellipse_angles sample_rows)[2]? = some ⟨"interesting", 42⟩ ∧
    (⟨"interesting", 42⟩ : MRow) = ⟨"interesting", 42⟩ := by
  have e1 : sample_rows[0]? = some ⟨"blotch", -30⟩ := rfl
  have e2 : (convert_ellipse_angles sample_rows)[0]? = some ⟨"blotch", 150⟩ := by
    have : pymod (-30) 180 = 150 := by norm_num [pymod]
    simp [convert_ellipse_angles, sample_rows, this]
  have e3 : sample_rows[1]? = some ⟨"fan", 370⟩ := rfl
  have e4 : (normalize_fan_angles sample_rows)[1]? = some ⟨"fan", 10⟩ := by
    have : pymod 370 360 = 10 := by norm_num [pymod]
    simp [normalize_fan_angles, sample_rows, this]
  have e5 : sample_rows[2]? = some ⟨"interesting", 42⟩ := rfl
  have e6 : (convert_ellipse_angles sample_rows)[2]? = some ⟨"interesting", 42⟩ := by
    simp [convert_ellipse_angles, sample_rows]
  have hb := ((C8_angle_normalization sample_rows 0 ⟨"blotch", -30⟩
    ⟨"blotch", 150⟩).2.2.1 e1 e2).1 rfl
  have hfn := ((C8_angle_normalization sample_rows 1 ⟨"fan", 370⟩
    ⟨"fan", 10⟩).2.2.2 e3 e4).1 rfl
  have hun := ((C8_angle_normalization sample_rows 2 ⟨"interesting", 42⟩
    ⟨"interesting", 42⟩).2.2.1 e5 e6).2 (by decide)
  exact ⟨e1, e2, ⟨hb.2.2.1, hb.2.2.2⟩, e3, e4, ⟨hfn.2.2.1, hfn.2.2.2⟩, e5, e6, hun⟩

/-! ### `ReleaseManager.merge_fnotch_results` -/

/-- One row of a fnotch comparison table: the numeric columns (the
`vote_ratio`, embedded as `vote_rate`, plus a representative second numeric
column) and the identity columns `image_id` and `obsid`. -/
structure FnRow where
  marking_id : String
  vote_rate : ℚ
  image_x : ℚ
  image_id : String
  obsid : String
deriving DecidableEq, Inhabited

/-- Boolean form of the lexicographic string order pandas sorts group keys
by. -/
def str_leb (a b : String) : Bool := decide (a.data ≤ b.data)

/-- Group keys of `df.groupby("marking_id")`: the distinct ids, which
pandas returns in sorted order. -/
def groupby_keys (df : List FnRow) : List String :=
  ((df.map FnRow.marking_id).dedup).mergeSort str_leb

/-- Unweighted arithmetic mean, `DataFrame.mean()` for one column of one
group. -/
def list_mean (xs : List ℚ) : ℚ := xs.sum / xs.length

/-- Embedding of `ReleaseManager.merge_fnotch_results` on one table:
`groupby("marking_id").mean()` averages every numeric column over each
id's rows; `drop_duplicates(subset="marking_id")` keeps each id's first
row, whose `image_id` and `obsid` the inner `join` re-attaches. -/
def merge_fnotch_one (df : List FnRow) : List FnRow :=
  (groupby_keys df).map fun k =>
    { marking_id := k,
      vote_rate := list_mean ((df.filter fun r => r.marking_id == k).map FnRow.vote_rate),
      image_x := list_mean ((df.filter fun r => r.marking_id == k).map FnRow.image_x),
      image_id := (df.filter fun r => r.marking_id == k).headI.image_id,
      obsid := (df.filter fun r => r.marking_id == k).headI.obsid }

/-- Embedding of `ReleaseManager.merge_fnotch_results`: the same collapse
applied to the fan table and to the blotch table. -/
def merge_fnotch_results (fans blotches : List FnRow) : List FnRow × List FnRow :=
  (merge_fnotch_one fans, merge_fnotch_one blotches)

lemma groupby_keys_perm (df : List FnRow) :
    (groupby_keys df).Perm (df.map FnRow.marking_id).dedup :=
  List.mergeSort_perm _ _

lemma merge_fnotch_one_keys (df : List FnRow) :
    (merge_fnotch_one df).map FnRow.marking_id = groupby_keys df := by
  rw [merge_fnotch_one, List.map_map]
  exact List.map_id _

lemma filter_id_ne_nil {df : List FnRow} {k : String}
    (hk : k ∈ df.map FnRow.marking_id) :
    df.filter (fun r => r.marking_id == k) ≠ [] := by
  obtain ⟨s, hs, rfl⟩ := List.mem_map.mp hk
  intro hnil
  rw [List.filter_eq_nil_iff] at hnil
  exact hnil s hs (by simp)

/-- Scenario table for C3: three comparison rows for the same fan id with
vote ratios 0.2, 0.6 and 0.4, identical identity columns, and a second
numeric column averaging to 20. -/
def scenario_rows : List FnRow :=
  [⟨"F00abcd", 1/5, 10, "APF0000xyz", "ESP_011234_0950"⟩,
   ⟨"F00abcd", 3/5, 20, "APF0000xyz", "ESP_011234_0950"⟩,
   ⟨"F00abcd", 2/5, 30, "APF0000xyz", "ESP_011234_0950"⟩]

/-- C3: `merge_fnotch_results` collapses each table to exactly one row per
distinct `marking_id` (the distinct-id count is preserved), every numeric
column of an output row is the unweighted mean over that id's duplicate
rows, the identity columns are taken from a representative duplicate row,
and the three-row 0.2/0.6/0.4 scenario collapses to one row with vote
ratio 0.4 and its identity columns preserved. -/
theorem C3_merge_fnotch_results :
    (∀ fans blotches : List FnRow,
      merge_fnotch_results fans blotches
        = (merge_fnotch_one fans, merge_fnotch_one blotches)) ∧
    (∀ df : List FnRow,
      ((merge_fnotch_one df).map FnRow.marking_id).Nodup ∧
      (∀ k, k ∈ (merge_fnotch_one df).map FnRow.marking_id
        ↔ k ∈ df.map FnRow.marking_id) ∧
      ((merge_fnotch_one df).map FnRow.marking_id).dedup.length
        = (df.map FnRow.marking_id).dedup.length) ∧
    (∀ (df : List FnRow) (r : FnRow), r ∈ merge_fnotch_one df →
      r.vote_rate
        = list_mean ((df.filter fun s => s.marking_id == r.marking_id).map FnRow.vote_rate) ∧
      r.image_x
        = list_mean ((df.filter fun s => s.marking_id == r.marking_id).map FnRow.image_x) ∧
      ∃ rep, rep ∈ df ∧ rep.marking_id = r.marking_id ∧
        r.image_id = rep.image_id ∧ r.obsid = rep.obsid) ∧
    merge_fnotch_one scenario_rows
      = [⟨"F00abcd", 2/5, 20, "APF0000xyz", "ESP_011234_0950"⟩] := by
  have hnodup : ∀ df : List FnRow, ((merge_fnotch_one df).map FnRow.marking_id).Nodup := by
    intro df
    rw [merge_fnotch_one_keys]
    exact ((groupby_keys_perm df).nodup_iff).mpr (List.nodup_dedup _)
  have hmem : ∀ (df : List FnRow) (k : String),
      k ∈ (merge_fnotch_one df).map FnRow.marking_id ↔ k ∈ df.map FnRow.marking_id := by
    intro df k
    rw [merge_fnotch_one_keys]
    rw [(groupby_keys_perm df).mem_iff]
    exact List.mem_dedup
  refine ⟨fun _ _ => rfl, ?_, ?_, ?_⟩
  · intro df
    refine ⟨hnodup df, hmem df, ?_⟩
    rw [List.dedup_eq_self.mpr (hnodup df), merge_fnotch_one_keys,
      (groupby_keys_perm df).length_eq]
  · intro df r hr
    rw [merge_fnotch_one, List.mem_map] at hr
    obtain ⟨k, hk, rfl⟩ := hr
    have hk2 : k ∈ df.map FnRow.marking_id :=
      List.mem_dedup.mp (((groupby_keys_perm df).mem_iff).mp hk)
    refine ⟨rfl, rfl, ?_⟩
    rcases hfil : df.filter (fun r => r.marking_id == k) with _ | ⟨a, t⟩
    · exact absurd hfil (filter_id_ne_nil hk2)
    · have ha : a ∈ df.filter (fun r => r.marking_id == k) := by
        rw [hfil]; exact List.mem_cons_self a t
      have haf := List.mem_filter.mp ha
      refine ⟨a, haf.1, by simpa using haf.2, ?_, ?_⟩
      · show (df.filter (fun r => r.marking_id == k)).headI.image_id = a.image_id
        rw [hfil]
        rfl
      · show (df.filter (fun r => r.marking_id == k)).headI.obsid = a.obsid
        rw [hfil]
        rfl
  · have hkeys : groupby_keys scenario_rows = ["F00abcd"] := by
      simp [groupby_keys, scenario_rows]
    have hfil : scenario_rows.filter (fun r => r.marking_id == "F00abcd")
        = scenario_rows := by
      simp [scenario_rows]
    rw [merge_fnotch_one, hkeys]
    rw [List.map_singleton, hfil]
    have hv : list_mean (scenario_rows.map FnRow.vote_rate) = 2/5 := by
      norm_num [list_mean, scenario_rows]
    have hx : list_mean (scenario_rows.map FnRow.image_x) = 20 := by
      norm_num [list_mean, scenario_rows]
    rw [hv, hx]
    rfl

/-- Witness for C3 on the scenario table: the collapsed row's vote ratio is
the mean of the three duplicates and its identity columns come from a
representative input row. -/
theorem C3_merge_fnotch_results_witness :
    ((⟨"F00abcd", 2/5, 20, "APF0000xyz", "ESP_011234_0950"⟩ : FnRow)
        ∈ merge_fnotch_one scenario_rows) ∧
    (2/5 : ℚ)
      = list_mean ((scenario_rows.filter
          fun s => s.marking_id == "F00abcd").map FnRow.vote_rate) := by
  have hs := C3_merge_fnotch_results.2.2.2
  have hmem : (⟨"F00abcd", 2/5, 20, "APF0000xyz", "ESP_011234_0950"⟩ : FnRow)
      ∈ merge_fnotch_one scenario_rows := by
    rw [hs]
    exact List.mem_singleton.mpr rfl
  have h := C3_merge_fnotch_results.2.2.1 scenario_rows
    ⟨"F00abcd", 2/5, 20, "APF0000xyz", "ESP_011234_0950"⟩ hmem
  exact ⟨hmem, h.1⟩

/-! ### `ReleaseManager.merge_campt_results` -/

/-- One candidate (fan or blotch) row, restricted to the join key columns
`obsid`, `image_x`, `image_y` and a representative payload column. -/
structure CandRow where
  obsid : String
  image_x : ℚ
  image_y : ℚ
  angle : ℚ
deriving DecidableEq

/-- One row of the collected ground-projection table, with the join key
columns and a representative ground payload column. -/
structure GroundRow where
  obsid : String
  image_x : ℚ
  image_y : ℚ
  latitude : ℚ
deriving DecidableEq

/-- One row of the joined result. -/
structure MergedRow where
  obsid : String
  image_x : ℚ
  image_y : ℚ
  angle : ℚ
  latitude : ℚ
deriving DecidableEq

/-- numpy/pandas rounding to the nearest integer, ties to even. -/
def npround (x : ℚ) : ℤ :=
  if Int.fract x < 1 / 2 then ⌊x⌋
  else if 1 / 2 < Int.fract x then ⌊x⌋ + 1
  else if Even ⌊x⌋ then ⌊x⌋ else ⌊x⌋ + 1

/-- Rounding one cell to 7 decimal digits, `round(decimals=7)`. -/
def round7 (x : ℚ) : ℚ := (npround (x * 10 ^ 7) : ℚ) / 10 ^ 7

/-- `DataFrame.round(decimals=7)` applied to the collected ground table:
every numeric column is rounded. -/
def round_ground (g : GroundRow) : GroundRow :=
  ⟨g.obsid, round7 g.image_x, round7 g.image_y, round7 g.latitude⟩

/-- The composite join key `INDEX = ["obsid", "image_x", "image_y"]`. -/
def key_match (f : CandRow) (g : GroundRow) : Bool :=
  f.obsid == g.obsid && decide (f.image_x = g.image_x) && decide (f.image_y = g.image_y)

/-- The columns a joined row keeps from each side. -/
def merge_one_row (f : CandRow) (g : GroundRow) : MergedRow :=
  ⟨f.obsid, f.image_x, f.image_y, f.angle, g.latitude⟩

/-- pandas `left.merge(right, on=INDEX)` (inner join): left rows in order,
each paired with every matching right row in order. -/
def inner_merge (left : List CandRow) (right : List GroundRow) : List MergedRow :=
  left.flatMap fun f => (right.filter fun g => key_match f g).map fun g => merge_one_row f g

/-- Embedding of `ReleaseManager.merge_campt_results`: the collected ground
coordinate table is rounded to 7 decimals and then inner-joined onto the
fan and blotch candidate tables, which enter the join unrounded. -/
def merge_campt_results (fans blotches : List CandRow) (ground : List GroundRow) :
    List MergedRow × List MergedRow :=
  let g := ground.map round_ground
  (inner_merge fans g, inner_merge blotches g)

/-- The claim's reading of the merge, for comparison: both sides' pixel
coordinates are rounded to 7 decimals before the join. -/
def merge_campt_results_claimed (fans blotches : List CandRow) (ground : List GroundRow) :
    List MergedRow × List MergedRow :=
  let g := ground.map round_ground
  let rc := fun f : CandRow => CandRow.mk f.obsid (round7 f.image_x) (round7 f.image_y) f.angle
  (inner_merge (fans.map rc) g, inner_merge (blotches.map rc) g)

lemma mem_inner_merge {left : List CandRow} {right : List GroundRow} {r : MergedRow} :
    r ∈ inner_merge left right ↔
      ∃ f ∈ left, ∃ g ∈ right, f.obsid = g.obsid ∧ f.image_x = g.image_x ∧
        f.image_y = g.image_y ∧ r = merge_one_row f g := by
  unfold inner_merge
  simp only [List.mem_flatMap, List.mem_map, List.mem_filter, key_match,
    Bool.and_eq_true, beq_iff_eq, decide_eq_true_eq]
  constructor
  · rintro ⟨f, hf, g, ⟨hg, ⟨⟨ho, hx⟩, hy⟩⟩, rfl⟩
    exact ⟨f, hf, g, hg, ho, hx, hy, rfl⟩
  · rintro ⟨f, hf, g, hg, ho, hx, hy, rfl⟩
    exact ⟨f, hf, g, ⟨hg, ⟨⟨ho, hx⟩, hy⟩⟩, rfl⟩

/-- C2 (amended): in `merge_campt_results` only the ground table's
coordinates are rounded to 7 decimals; each candidate table joins with its
raw pixel coordinates, so an output row pairs a candidate row `f` with a
ground row `g` exactly when `f`'s raw coordinates equal `g`'s rounded
coordinates. -/
theorem C2_merge_campt_results :
    ∀ (fans blotches : List CandRow) (ground : List GroundRow) (r : MergedRow),
    (r ∈ (merge_campt_results fans blotches ground).1 ↔
      ∃ f ∈ fans, ∃ g ∈ ground, f.obsid = g.obsid ∧
        f.image_x = round7 g.image_x ∧ f.image_y = round7 g.image_y ∧
        r = merge_one_row f (round_ground g)) ∧
    (r ∈ (merge_campt_results fans blotches ground).2 ↔
      ∃ f ∈ blotches, ∃ g ∈ ground, f.obsid = g.obsid ∧
        f.image_x = round7 g.image_x ∧ f.image_y = round7 g.image_y ∧
        r = merge_one_row f (round_ground g)) := by
  have hside : ∀ (side : List CandRow) (ground : List GroundRow) (r : MergedRow),
      r ∈ inner_merge side (ground.map round_ground) ↔
        ∃ f ∈ side, ∃ g ∈ ground, f.obsid = g.obsid ∧
          f.image_x = round7 g.image_x ∧ f.image_y = round7 g.image_y ∧
          r = merge_one_row f (round_ground g) := by
    intro side ground r
    rw [mem_inner_merge]
    constructor
    · rintro ⟨f, hf, g', hg', ho, hx, hy, rfl⟩
      obtain ⟨g, hg, rfl⟩ := List.mem_map.mp hg'
      exact ⟨f, hf, g, hg, ho, hx, hy, rfl⟩
    · rintro ⟨f, hf, g, hg, ho, hx, hy, rfl⟩
      exact ⟨f, hf, round_ground g, List.mem_map.mpr ⟨g, hg, rfl⟩, ho, hx, hy, rfl⟩
  intro fans blotches ground r
  exact ⟨hside fans ground r, hside blotches ground r⟩

lemma round7_8digits : round7 (12345678 / 10 ^ 8 : ℚ) = 1234568 / 10 ^ 7 := by
  have hx : (12345678 / 10 ^ 8 : ℚ) * 10 ^ 7 = 6172839 / 5 := by norm_num
  have hfl : ⌊(6172839 : ℚ) / 5⌋ = 1234567 := by norm_num
  have hfr : Int.fract ((6172839 : ℚ) / 5) = 4 / 5 := by
    rw [Int.fract, hfl]
    norm_num
  rw [round7, npround, hx, hfr, hfl]
  rw [if_neg (by norm_num), if_pos (by norm_num)]
  norm_num

/-- C2 counterexample: a fan row and a ground row with identical raw pixel
coordinates of 8 decimal digits.  The code rounds only the ground side, the
join keys no longer agree, and the row is lost; rounding both sides as the
claim states would keep it. -/
theorem C2_counterexample :
    (merge_campt_results [⟨"ESP_011234_0950", 12345678 / 10 ^ 8, 0, 30⟩] []
        [⟨"ESP_011234_0950", 12345678 / 10 ^ 8, 0, -85⟩]).1 = [] ∧
    (merge_campt_results_claimed [⟨"ESP_011234_0950", 12345678 / 10 ^ 8, 0, 30⟩] []
        [⟨"ESP_011234_0950", 12345678 / 10 ^ 8, 0, -85⟩]).1 ≠ [] := by
  have hne : (12345678 / 10 ^ 8 : ℚ) ≠ 1234568 / 10 ^ 7 := by norm_num
  have hr0 : round7 (0 : ℚ) = 0 := by
    rw [round7, npround]
    norm_num
  constructor
  · have h1 : (merge_campt_results [⟨"ESP_011234_0950", 12345678 / 10 ^ 8, 0, 30⟩] []
        [⟨"ESP_011234_0950", 12345678 / 10 ^ 8, 0, -85⟩]).1
        = inner_merge [⟨"ESP_011234_0950", 12345678 / 10 ^ 8, 0, 30⟩]
            ([⟨"ESP_011234_0950", 12345678 / 10 ^ 8, 0, -85⟩].map round_ground) := rfl
    rw [h1, List.eq_nil_iff_forall_not_mem]
    intro r hr
    obtain ⟨f, hf, g', hg', ho, hx, hy, -⟩ := mem_inner_merge.mp hr
    rw [List.mem_singleton] at hf
    obtain ⟨g, hg, rfl⟩ := List.mem_map.mp hg'
    rw [List.mem_singleton] at hg
    subst hf
    subst hg
    have hx2 : (12345678 / 10 ^ 8 : ℚ) = 1234568 / 10 ^ 7 := by
      rw [show (round_ground ⟨"ESP_011234_0950", 12345678 / 10 ^ 8, 0, -85⟩).image_x
          = round7 (12345678 / 10 ^ 8) from rfl, round7_8digits] at hx
      exact hx
    exact hne hx2
  · intro h
    have hmem : merge_one_row ⟨"ESP_011234_0950", 1234568 / 10 ^ 7, 0, 30⟩
          (round_ground ⟨"ESP_011234_0950", 12345678 / 10 ^ 8, 0, -85⟩)
        ∈ (merge_campt_results_claimed [⟨"ESP_011234_0950", 12345678 / 10 ^ 8, 0, 30⟩] []
            [⟨"ESP_011234_0950", 12345678 / 10 ^ 8, 0, -85⟩]).1 := by
      show _ ∈ inner_merge _ _
      rw [mem_inner_merge]
      refine ⟨⟨"ESP_011234_0950", 1234568 / 10 ^ 7, 0, 30⟩, ?_, ?_⟩
      · rw [List.mem_map]
        exact ⟨⟨"ESP_011234_0950", 12345678 / 10 ^ 8, 0, 30⟩, List.mem_singleton.mpr rfl,
          by rw [round7_8digits, hr0]⟩
      · refine ⟨round_ground ⟨"ESP_011234_0950", 12345678 / 10 ^ 8, 0, -85⟩,
          List.mem_map.mpr ⟨_, List.mem_singleton.mpr rfl, rfl⟩, rfl, ?_, ?_, rfl⟩
        · show (1234568 / 10 ^ 7 : ℚ) = round7 (12345678 / 10 ^ 8)
          rw [round7_8digits]
        · show (0 : ℚ) = round7 0
          rw [hr0]
    rw [h] at hmem
    exact (List.not_mem_nil _) hmem

/-! ### `markings.P4_Fan` geometry -/

/-- Degrees to radians, `math.radians`. -/
noncomputable def radians (d : ℝ) : ℝ := d * Real.pi / 180

/-- Embedding of `markings.rotate_vector`: rotate a 2D vector by an angle
given in degrees using the standard rotation matrix. -/
noncomputable def rotate_vector (v : ℝ × ℝ) (angle : ℝ) : ℝ × ℝ :=
  (Real.cos (radians angle) * v.1 - Real.sin (radians angle) * v.2,
   Real.sin (radians angle) * v.1 + Real.cos (radians angle) * v.2)

/-- The marking columns `P4_Fan.__init__` reads. -/
structure FanData where
  x : ℝ
  y : ℝ
  angle : ℝ
  spread : ℝ
  distance : ℝ

/-- Embedding of `P4_Fan.get_arm_length`: `spread / 2` is converted to
radians before taking cosine and sine. -/
noncomputable def get_arm_length (d : FanData) : ℝ :=
  d.distance / (Real.cos (radians (d.spread / 2)) + Real.sin (radians (d.spread / 2)))

/-- First arm vector of `P4_Fan.__init__`: `[length, 0]` rotated by
`alpha = angle - spread / 2`. -/
noncomputable def fan_v1 (d : FanData) : ℝ × ℝ :=
  rotate_vector (get_arm_length d, 0) (d.angle - d.spread / 2)

/-- Second arm vector of `P4_Fan.__init__`: `[length, 0]` rotated by
`beta = alpha + spread`. -/
noncomputable def fan_v2 (d : FanData) : ℝ × ℝ :=
  rotate_vector (get_arm_length d, 0) ((d.angle - d.spread / 2) + d.spread)

/-- C9: the derived arm length equals `distance / (cos(spread/2) +
sin(spread/2))` with the half-spread in radians, and the two arm-tip
vectors are `[length, 0]` rotated by `angle - spread/2` and
`angle + spread/2`; both have squared magnitude `length ^ 2`, and whenever
the denominator is nonzero the inverse relation
`length * (cos(spread/2) + sin(spread/2)) = distance` holds exactly. -/
theorem C9_fan_geometry : ∀ d : FanData,
    get_arm_length d
      = d.distance
          / (Real.cos (radians (d.spread / 2)) + Real.sin (radians (d.spread / 2))) ∧
    fan_v1 d = rotate_vector (get_arm_length d, 0) (d.angle - d.spread / 2) ∧
    fan_v2 d = rotate_vector (get_arm_length d, 0) (d.angle + d.spread / 2) ∧
    (fan_v1 d).1 ^ 2 + (fan_v1 d).2 ^ 2 = get_arm_length d ^ 2 ∧
    (fan_v2 d).1 ^ 2 + (fan_v2 d).2 ^ 2 = get_arm_length d ^ 2 ∧
    (Real.cos (radians (d.spread / 2)) + Real.sin (radians (d.spread / 2)) ≠ 0 →
      get_arm_length d
          * (Real.cos (radians (d.spread / 2)) + Real.sin (radians (d.spread / 2)))
        = d.distance) := by
  intro d
  refine ⟨rfl, rfl, ?_, ?_, ?_, ?_⟩
  · rw [fan_v2, show d.angle - d.spread / 2 + d.spread = d.angle + d.spread / 2 by ring]
  · show (Real.cos (radians (d.angle - d.spread / 2)) * get_arm_length d
        - Real.sin (radians (d.angle - d.spread / 2)) * 0) ^ 2
      + (Real.sin (radians (d.angle - d.spread / 2)) * get_arm_length d
        + Real.cos (radians (d.angle - d.spread / 2)) * 0) ^ 2 = get_arm_length d ^ 2
    linear_combination (get_arm_length d ^ 2)
      * Real.cos_sq_add_sin_sq (radians (d.angle - d.spread / 2))
  · show (Real.cos (radians (d.angle - d.spread / 2 + d.spread)) * get_arm_length d
        - Real.sin (radians (d.angle - d.spread / 2 + d.spread)) * 0) ^ 2
      + (Real.sin (radians (d.angle - d.spread / 2 + d.spread)) * get_arm_length d
        + Real.cos (radians (d.angle - d.spread / 2 + d.spread)) * 0) ^ 2
      = get_arm_length d ^ 2
    linear_combination (get_arm_length d ^ 2)
      * Real.cos_sq_add_sin_sq (radians (d.angle - d.spread / 2 + d.spread))
  · intro h
    rw [get_arm_length]
    exact div_mul_cancel₀ _ h

/-- Witness for C9 at a fan with zero spread, where the denominator is
`cos 0 + sin 0 = 1`. -/
theorem C9_fan_geometry_witness :
    (Real.cos (radians ((0 : ℝ) / 2)) + Real.sin (radians ((0 : ℝ) / 2)) ≠ 0) ∧
    get_arm_length ⟨0, 0, 0, 0, 5⟩
        * (Real.cos (radians ((0 : ℝ) / 2)) + Real.sin (radians ((0 : ℝ) / 2)))
      = 5 := by
  have hr : radians ((0 : ℝ) / 2) = 0 := by simp [radians]
  have hne : Real.cos (radians ((0 : ℝ) / 2)) + Real.sin (radians ((0 : ℝ) / 2)) ≠ 0 := by
    rw [hr, Real.cos_zero, Real.sin_zero]
    norm_num
  exact ⟨hne, (C9_fan_geometry ⟨0, 0, 0, 0, 5⟩).2.2.2.2.2 hne⟩

end P4
